import Mathlib

/-!
Verification of the document-processing core of the `gig` reconciliation
repository against its natural-language specification.

Each Python function relevant to the frozen claims is shallowly embedded as an
executable Lean definition translated from the source under
`src/reconciliation/document_processing/`.  External collaborators (the network
fetch, the pandas file reader, the Django ORM persistence store, the Python `re`
regexes and the LLM extraction capability) are passed in as explicit parameters
or modelled as explicit state, exactly where the source code calls out to them.
-/

/-- Prefix test on character lists, by structural recursion
so that the kernel can evaluate it. -/
def charPrefixOf : List Char → List Char → Bool
  | [], _ => true
  | _ :: _, [] => false
  | c :: n, d :: h => c = d && charPrefixOf n h

/-- Containment of `n` as a contiguous run inside `h` (Python `n in h`). -/
def charInfixOf (n : List Char) : List Char → Bool
  | [] => n.isEmpty
  | c :: t => charPrefixOf n (c :: t) || charInfixOf n t

/-- Python `needle in haystack` on strings: contiguous-substring containment. -/
def strContains (haystack needle : String) : Bool :=
  charInfixOf needle.data haystack.data

/-- Python `str.lower()`, modelled character-by-character (ASCII case mapping,
which is all the embedded keyword tables exercise). -/
def strToLower (s : String) : String :=
  ⟨s.data.map Char.toLower⟩

/- ------------------------------------------------------------------------
   Data-Type Classifier
   `POGRNExtractor.detect_data_type`
   (processors/data_ingestion/po_grn_extractor.py, lines 161-189)
------------------------------------------------------------------------ -/

/-- PO indicator tokens of `detect_data_type` (po_grn_extractor.py line 173). -/
def poIndicators : List String :=
  ["po_number", "po_no", "purchase_order_number", "order_number", "po_creation_date"]

/-- GRN indicator tokens of `detect_data_type` (po_grn_extractor.py line 174). -/
def grnIndicators : List String :=
  ["grn_number", "grn_no", "receipt_number", "goods_receipt_no",
   "received_quantity", "grn_creation_date"]

/-- Combined-report indicator tokens of `detect_data_type`
(po_grn_extractor.py line 175). -/
def combinedIndicators : List String :=
  ["po_amount", "grn_amount", "grn_subtotal", "grn_tax", "po_status", "received_status"]

/-- Size of `indicators ∩ cols` as computed by
`len(indicators.intersection(df_columns))`: the indicator lists above are
duplicate-free, so counting the indicators present in `cols` equals the
Python set-intersection cardinality. -/
def countMatches (indicators cols : List String) : Nat :=
  (indicators.filter (fun s => cols.contains s)).length

/-- Embedding of `POGRNExtractor.detect_data_type` (po_grn_extractor.py lines 161-189):
decides `po` / `grn` / `combined_po_grn` / `unknown` from the normalized
column-name set. -/
def detect_data_type (cols : List String) : String :=
  let po_matches := countMatches poIndicators cols
  let grn_matches := countMatches grnIndicators cols
  let combined_matches := countMatches combinedIndicators cols
  if 3 ≤ combined_matches ∧ 0 < po_matches ∧ 0 < grn_matches then "combined_po_grn"
  else if po_matches < grn_matches then "grn"
  else if 0 < po_matches then "po"
  else "unknown"

/- ------------------------------------------------------------------------
   Document Type Checker
   `DocumentTypeChecker.determine_document_type`
   (processors/document_type_checker.py, lines 25-82)
------------------------------------------------------------------------ -/

/-- The table `DocumentTypeChecker.PO_KEYWORDS` (document_type_checker.py lines 11-15). -/
def PO_KEYWORDS : List String :=
  ["purchase order", "p.o.", "p.o", "p/o",
   "order number", "order no", "order #",
   "ordered by", "ship to", "delivery date"]

/-- The table `DocumentTypeChecker.INVOICE_KEYWORDS` (document_type_checker.py lines 18-23). -/
def INVOICE_KEYWORDS : List String :=
  ["invoice", "bill", "tax invoice",
   "invoice number", "invoice no", "invoice #",
   "invoice date", "payment due", "amount due",
   "balance due", "total due", "payment terms"]

/-- Keyword score: one point per keyword contained in the lowercased text,
mirroring the two counting loops of `determine_document_type`. -/
def keywordScore (keywords : List String) (textLower : String) : Nat :=
  (keywords.filter (fun k => strContains textLower k)).length

/-- Embedding of `DocumentTypeChecker.determine_document_type`
(document_type_checker.py lines 25-82).  The two `re.search` loops over the
fixed invoice-number and PO-number pattern lists are abstracted as the boolean
parameters `invPat` and `poPat` (the Python `re` engine is an external
collaborator); each is `true` exactly when some pattern of its family matches
the lowercased text. -/
def determine_document_type (invPat poPat : String → Bool) (text : String) : String :=
  let text_lower := strToLower text
  let po_score := keywordScore PO_KEYWORDS text_lower
  let invoice_score := keywordScore INVOICE_KEYWORDS text_lower
  if invoice_score < po_score then "po"
  else if po_score < invoice_score then "invoice"
  else if invPat text_lower then "invoice"
  else if poPat text_lower then "po"
  else "unknown"

/- ------------------------------------------------------------------------
   File Classifier (remote)
   `SmartFileClassifier.download_and_analyze`, format-detection step
   (utils/file_classifier.py, lines 52-91)
------------------------------------------------------------------------ -/

/-- Detected format together with the extension assigned by the classifier. -/
structure DetectedFormat where
  detected_format : String
  extension : String
deriving DecidableEq, Repr

/-- The `%PDF` magic bytes. -/
def pdfSig : List Nat := [0x25, 0x50, 0x44, 0x46]

/-- JPEG `FFD8FF` magic bytes. -/
def jpegSig : List Nat := [0xFF, 0xD8, 0xFF]

/-- PNG signature bytes. -/
def pngSig : List Nat := [0x89, 0x50, 0x4E, 0x47, 0x0D, 0x0A, 0x1A, 0x0A]

/-- Byte-prefix test (`bytes.startswith`) on byte lists. -/
def bytesStartWith : List Nat → List Nat → Bool
  | [], _ => true
  | _ :: _, [] => false
  | b :: n, c :: h => b = c && bytesStartWith n h

/-- Signature stage of the detection (file_classifier.py lines 57-65): match
the first 20 downloaded bytes against the known magic numbers. -/
def sigDetect (content : List Nat) : Option DetectedFormat :=
  let first_bytes := content.take 20
  if bytesStartWith pdfSig first_bytes then some ⟨"PDF", ".pdf"⟩
  else if bytesStartWith jpegSig first_bytes then some ⟨"JPEG", ".jpg"⟩
  else if bytesStartWith pngSig first_bytes then some ⟨"PNG", ".png"⟩
  else none

/-- Content-type stage (file_classifier.py lines 66-74): substring tests on
the lowercased `content-type` header. -/
def contentTypeDetect (contentTypeLower : String) : Option DetectedFormat :=
  if strContains contentTypeLower "pdf" then some ⟨"PDF", ".pdf"⟩
  else if strContains contentTypeLower "jpeg" || strContains contentTypeLower "jpg" then
    some ⟨"JPEG", ".jpg"⟩
  else if strContains contentTypeLower "png" then some ⟨"PNG", ".png"⟩
  else none

/-- Python `str.endswith` (single suffix). -/
def strEndsWith (s suffix : String) : Bool :=
  charPrefixOf suffix.data.reverse s.data.reverse

/-- URL-suffix stage (file_classifier.py lines 76-87): extension tests on the
lowercased URL; `none` corresponds to the
`raise ValueError(f"Unsupported file format: ...")` branch (line 88). -/
def urlSuffixDetect (urlLower : String) : Option DetectedFormat :=
  if strEndsWith urlLower ".pdf" then some ⟨"PDF", ".pdf"⟩
  else if strEndsWith urlLower ".jpg" || strEndsWith urlLower ".jpeg" then some ⟨"JPEG", ".jpg"⟩
  else if strEndsWith urlLower ".png" then some ⟨"PNG", ".png"⟩
  else none

/-- Format-detection step of `SmartFileClassifier.download_and_analyze`
(file_classifier.py lines 52-88): the single if/elif chain of the source,
written as the three stages above chained in source order - byte
signature first (lines 57-65), then declared content type (lines 66-74), then
URL suffix (lines 76-87), else the unsupported-format error (`none`, line 88).
The stage conditions and results are exactly the branches of the source in
the order of the source.  `content` is the downloaded byte string, `contentTypeHeader`
the declared `content-type` header, `url` the requested URL. -/
def detectFileFormat (content : List Nat) (contentTypeHeader url : String) :
    Option DetectedFormat :=
  match sigDetect content with
  | some f => some f
  | none =>
      match contentTypeDetect (strToLower contentTypeHeader) with
      | some f => some f
      | none => urlSuffixDetect (strToLower url)

/- ------------------------------------------------------------------------
   Numeric field coercion
   (utils/attachment_processor.py: financial fields lines 410-418 and 725-733,
    quantity lines 452-460, unit price lines 462-470)
------------------------------------------------------------------------ -/

/-- Python `str.strip()` (whitespace at both ends). -/
def pyStrip (s : String) : String :=
  ⟨((s.data.dropWhile Char.isWhitespace).reverse.dropWhile Char.isWhitespace).reverse⟩

/-- Python `s.replace(c, "")` for a one-character pattern: delete every
occurrence of the character (all the separators stripped by the coercion code
are single characters: the comma, the rupee sign and the percent sign). -/
def strRemoveChar (s : String) (c : Char) : String :=
  ⟨s.data.filter (fun d => d ≠ c)⟩

/-- Digits of a character list read as a natural number (empty list reads 0,
matching its use below where emptiness is checked separately). -/
def natOfDigits : List Char → Nat
  | [] => 0
  | c :: t => natOfDigits t + (c.toNat - 48) * 10 ^ t.length

/-- A `decimal.Decimal` value: integer mantissa and decimal scale, so that the
value is `mant / 10 ^ scale`.  `Decimal` keeps the scale of the literal it was
built from, which this representation preserves. -/
structure PyDecimal where
  mant : Int
  scale : Nat
deriving DecidableEq, Repr

/-- Numeric value of a `PyDecimal`. -/
def PyDecimal.toRat (d : PyDecimal) : ℚ := (d.mant : ℚ) / (10 : ℚ) ^ d.scale

/-- Model of `decimal.Decimal(str)` on plain finite numeric literals: an
optional sign, then digits with at most one decimal point and at least one
digit.  Inputs outside this grammar raise `InvalidOperation` in Python, which
the callers below catch; here they return `none`.  (The exotic parts of the
`Decimal` constructor grammar - exponents, `NaN`, `Infinity` - are never
produced by the extraction pipeline and are not modelled.) -/
def pyDecimal (s : String) : Option PyDecimal :=
  let cs :=
    match s.data with
    | '+' :: t => t
    | '-' :: t => t
    | t => t
  let neg : Bool := s.data.head? = some '-'
  let signed : Nat → Int := fun n => if neg then -(n : Int) else (n : Int)
  let ip := cs.takeWhile (fun c => c.isDigit)
  let rest := cs.dropWhile (fun c => c.isDigit)
  match rest with
  | [] =>
      if ip.isEmpty then none
      else some ⟨signed (natOfDigits ip), 0⟩
  | '.' :: fp =>
      if fp.all (fun c => c.isDigit) && !(ip.isEmpty && fp.isEmpty) then
        some ⟨signed (natOfDigits ip * 10 ^ fp.length + natOfDigits fp), fp.length⟩
      else none
  | _ => none

/-- Financial-field coercion (attachment_processor.py lines 411-418): applied
to `invoice_value_without_gst`, `invoice_total_post_gst` and the seven GST
fields.  `none` input models a missing key (`.get` returned `None`), and the
empty string is falsy, so both skip; otherwise commas, the rupee sign and
percent signs are removed, the result stripped, and empty-after-cleaning or
unparseable values are skipped (`InvalidOperation`/`ValueError` caught). -/
def coerceFinancial (value : Option String) : Option PyDecimal :=
  match value with
  | none => none
  | some s =>
      if s = "" then none
      else
        let clean_value :=
          pyStrip (strRemoveChar (strRemoveChar (strRemoveChar s ',') '₹') '%')
        if clean_value = "" then none else pyDecimal clean_value

/-- Quantity coercion of `_create_invoice_items`
(attachment_processor.py lines 452-460): only commas are removed before the
strip; currency and percent signs are left in place. -/
def coerceQuantity (quantity_str : String) : Option PyDecimal :=
  if quantity_str = "" then none
  else
    let clean_qty := pyStrip (strRemoveChar quantity_str ',')
    if clean_qty = "" then none else pyDecimal clean_qty

/-- Unit-price coercion of `_create_invoice_items`
(attachment_processor.py lines 462-470): commas and the rupee sign are
removed, but not percent signs. -/
def coerceUnitPrice (unit_price_str : String) : Option PyDecimal :=
  if unit_price_str = "" then none
  else
    let clean_price := pyStrip (strRemoveChar (strRemoveChar unit_price_str ',') '₹')
    if clean_price = "" then none else pyDecimal clean_price

/-- The coercion that claim C9 describes, written from the words of the spec
(strip thousands-separators, currency symbols and percent signs, then
convert; skip when empty after stripping or non-numeric).  Used only to
compare the claimed behaviour with the quantity path of the code. -/
def claimedNumericCoerce (s : String) : Option PyDecimal :=
  if s = "" then none
  else
    let clean := pyStrip (strRemoveChar (strRemoveChar (strRemoveChar s ',') '₹') '%')
    if clean = "" then none else pyDecimal clean

/- ------------------------------------------------------------------------
   Invoice Extraction Pipeline: schema reconciliation
   `InvoicePDFProcessor.validate_and_clean_json`, merge step
   (processors/invoice_processors/invoice_pdf_processor.py, lines 143-187,
    schema lines 34-81)
------------------------------------------------------------------------ -/

/-- JSON values as produced by `json.loads`.  Objects keep their key order as
an association list; keys of a parsed Python dict are pairwise distinct. -/
inductive Json where
  | null : Json
  | bool : Bool → Json
  | num : PyDecimal → Json
  | str : String → Json
  | arr : List Json → Json
  | obj : List (String × Json) → Json

/-- First-occurrence lookup in the field list of an object (Python `d[k]` /
`k in d` on a dict whose keys are distinct). -/
def lookupJ (l : List (String × Json)) (k : String) : Option Json :=
  match l with
  | [] => none
  | (k', v) :: t => if k' = k then some v else lookupJ t k

/-- Python `d[k] = v` on a dict already containing `k`: replace the value at
the first occurrence of `k`, keeping order; a missing key leaves the list
unchanged (the merge below only assigns to keys it has just looked up). -/
def setJ (l : List (String × Json)) (k : String) (v : Json) : List (String × Json) :=
  match l with
  | [] => []
  | (k', v') :: t => if k' = k then (k', v) :: t else (k', v') :: setJ t k v

/-- Inner loop of `validate_and_clean_json` (invoice_pdf_processor.py lines
173-175): for each sub-key of the response object, assign it only when the
schema object at that key already knows the sub-key. -/
def mergeSub (acc : List (String × Json)) : List (String × Json) → List (String × Json)
  | [] => acc
  | (sk, sv) :: t =>
      mergeSub (if (lookupJ acc sk).isSome then setJ acc sk sv else acc) t

/-- One step of the outer loop of `validate_and_clean_json` (lines 169-177)
for the response entry `kv` against the evolving validated dict `acc`. -/
def mergeTopStep (acc : List (String × Json)) (kv : String × Json) :
    List (String × Json) :=
  match lookupJ acc kv.1 with
  | none => acc
  | some cur =>
      match cur, kv.2 with
      | .obj sf, .obj rf => setJ acc kv.1 (.obj (mergeSub sf rf))
      | _, _ => setJ acc kv.1 kv.2

/-- Outer merge loop of `validate_and_clean_json` (invoice_pdf_processor.py
lines 166-179): start from a copy of the schema and fold the parsed response
entries into it.  `validate_and_clean_json` itself first strips a markdown
fence and parses the JSON text; the merge is the part the claims address, with
the parsed response given as `resp`. -/
def validate_and_clean (acc resp : List (String × Json)) : List (String × Json) :=
  match resp with
  | [] => acc
  | kv :: t => validate_and_clean (mergeTopStep acc kv) t

/-- Tests whether a JSON value is an object (`isinstance(value, dict)`). -/
def Json.isObj : Json → Bool
  | .obj _ => true
  | _ => false

/-- Embedding of `InvoicePDFProcessor.invoice_schema` (invoice_pdf_processor.py lines
34-81): the fixed canonical invoice schema. -/
def invoice_schema : List (String × Json) :=
  [("invoice_number", .str ""),
   ("invoice_date", .str ""),
   ("due_date", .str ""),
   ("seller", .obj [("name", .str ""), ("gstin", .str ""), ("address", .str ""),
                    ("phone", .str ""), ("email", .str "")]),
   ("buyer", .obj [("name", .str ""), ("gstin", .str ""), ("address", .str ""),
                   ("phone", .str ""), ("email", .str "")]),
   ("items", .arr [.obj [("description", .str ""), ("hsn_sac", .str ""),
                         ("quantity", .str ""), ("unit", .str ""), ("rate", .str ""),
                         ("discount", .str ""), ("amount", .str "")]]),
   ("subtotal", .str ""),
   ("discount_total", .str ""),
   ("taxes", .obj [("cgst", .str ""), ("sgst", .str ""), ("igst", .str ""),
                   ("cess", .str ""), ("total_tax", .str "")]),
   ("grand_total", .str ""),
   ("amount_in_words", .str ""),
   ("payment_terms", .str ""),
   ("bank_details", .obj [("bank_name", .str ""), ("account_number", .str ""),
                          ("ifsc_code", .str ""), ("branch", .str "")])]

/-- Keys of the field list of an object. -/
def keysJ (l : List (String × Json)) : List String := l.map Prod.fst

/- ------------------------------------------------------------------------
   Attachment Orchestrator: enumeration of attachment URLs
   `SimplifiedAttachmentProcessor._extract_attachments_from_file`
   (utils/attachment_processor.py, lines 130-248)
------------------------------------------------------------------------ -/

/-- Python `str.startswith` (single prefix). -/
def strStartsWith (s p : String) : Bool :=
  charPrefixOf p.data s.data

/-- One attachment-info dict as built by `_extract_attachments_from_file`
(attachment_processor.py lines 224-231). -/
structure AttachmentInfo where
  url : String
  po_number : String
  grn_number : String
  supplier : String
  attachment_number : Nat
  row_number : Nat
deriving DecidableEq, Repr

/-- A loaded spreadsheet row after column renaming (attachment_processor.py
lines 148-199): each canonical cell is `none` when its column is missing from
the file or the cell is NaN, and `some s` for an actual cell value (pandas
cell values are rendered through `str(...)` exactly where the source does). -/
structure ExcelRow where
  po_no : Option String := none
  grn_no : Option String := none
  supplier : Option String := none
  attachment_1 : Option String := none
  attachment_2 : Option String := none
  attachment_3 : Option String := none
  attachment_4 : Option String := none
  attachment_5 : Option String := none
deriving DecidableEq, Repr

/-- Slot cell access on a loaded row, for slots 1..5. -/
def ExcelRow.attachment (r : ExcelRow) : Nat → Option String
  | 1 => r.attachment_1
  | 2 => r.attachment_2
  | 3 => r.attachment_3
  | 4 => r.attachment_4
  | 5 => r.attachment_5
  | _ => none

/-- Rendering of the slot number as the string the source stores (the
Python `str(i)`) for the five attachment slots. -/
def slotStr : Nat → String
  | 1 => "1"
  | 2 => "2"
  | 3 => "3"
  | 4 => "4"
  | 5 => "5"
  | _ => ""

/-- Default handling for the GRN cell with the `.get` default
(attachment_processor.py lines 206 and 213): strip when present, else the
N/A placeholder. -/
def grnDefault (r : ExcelRow) : String :=
  match r.grn_no with
  | some g => pyStrip g
  | none => "N/A"

/-- Default handling for the supplier cell with the `.get` default
(attachment_processor.py lines 207 and 214): strip when present, else the
Unknown placeholder. -/
def supplierDefault (r : ExcelRow) : String :=
  match r.supplier with
  | some sv => pyStrip sv
  | none => "Unknown"

/-- The attachment dict contributed by slot `i` of a row whose PO cell holds
`p` (attachment_processor.py lines 217-231): the slot contributes when its
cell is present, truthy, non-blank after stripping, and the stripped URL
starts with `http://` or `https://`. -/
def slotAttachment (rowIdx : Nat) (r : ExcelRow) (p : String) (i : Nat) :
    Option AttachmentInfo :=
  match r.attachment i with
  | none => none
  | some u =>
      if u ≠ "" && pyStrip u ≠ "" then
        if strStartsWith (pyStrip u) "http://"
            || strStartsWith (pyStrip u) "https://" then
          some ⟨pyStrip u, pyStrip p, grnDefault r, supplierDefault r, i, rowIdx + 1⟩
        else none
      else none

/-- Attachment dicts contributed by one row (attachment_processor.py lines
204-231): rows whose `po_no` cell is missing or falsy are skipped entirely;
otherwise slots 1..5 contribute through `slotAttachment`. -/
def rowAttachments (rowIdx : Nat) (r : ExcelRow) : List AttachmentInfo :=
  match r.po_no with
  | none => []
  | some p =>
      if p = "" then []
      else [1, 2, 3, 4, 5].filterMap (slotAttachment rowIdx r p)

/-- All attachment dicts of the rows starting at row index `idx`, in
row-then-slot order. -/
def extractAllFrom (idx : Nat) : List ExcelRow → List AttachmentInfo
  | [] => []
  | r :: t => rowAttachments idx r ++ extractAllFrom (idx + 1) t

/-- All attachment dicts of the file, in row-then-slot order
(attachment_processor.py lines 202-231). -/
def extractAllAttachments (rows : List ExcelRow) : List AttachmentInfo :=
  extractAllFrom 0 rows

/-- URL deduplication with a seen-set (attachment_processor.py lines 233-240):
first occurrence wins, encounter order preserved. -/
def dedupByUrl (seen : List String) : List AttachmentInfo → List AttachmentInfo
  | [] => []
  | a :: t =>
      if seen.contains a.url then dedupByUrl seen t
      else a :: dedupByUrl (a.url :: seen) t

/-- Embedding of `SimplifiedAttachmentProcessor._extract_attachments_from_file`
(attachment_processor.py lines 130-248), from the loaded, renamed row list to
the deduplicated attachment list. -/
def extract_attachments_from_file (rows : List ExcelRow) : List AttachmentInfo :=
  dedupByUrl [] (extractAllAttachments rows)

/- ------------------------------------------------------------------------
   Attachment Orchestrator: persistence model and batch loops
   `SimplifiedAttachmentProcessor` (utils/attachment_processor.py)
------------------------------------------------------------------------ -/

/-- One persisted `InvoiceData` row, with the fields the orchestrator reads
and writes.  The Django model class itself is not under `src/`; the fields
here are those set by the `InvoiceData(...)` constructor calls in
attachment_processor.py, plus `source_grn`.  Modelled from the spec: an
AttachmentRecord carries a source reference (GRN id or PO number - the
constructor calls in attachment_processor.py never pass it, so the saves
below leave it `none`; the status API in views/attachment_api_views.py
queries it, so pre-existing rows may carry any value). -/
structure InvoiceRecord where
  id : Nat
  attachment_number : String
  attachment_url : String
  po_number : String
  file_type : String
  original_file_extension : Option String
  vendor_name : String
  vendor_pan : String
  vendor_gst : String
  invoice_number : String
  processing_status : String
  error_message : Option String
  source_grn : Option Nat
deriving DecidableEq, Repr

/-- The persistence store: `InvoiceData` rows in insertion order.
`objects.filter(...).first()` is modelled as the first list entry matching
the filter, and `save()` as appending a row with the next id. -/
def nextId (db : List InvoiceRecord) : Nat := db.length + 1

/-- The fields of the LLM extraction result dict that the orchestrator reads
when building records and result entries (`extracted_data.get(...)`).
`none` models a missing key. -/
structure ExtractedData where
  vendor_name : Option String := none
  vendor_pan : Option String := none
  vendor_gst : Option String := none
  invoice_number : Option String := none
  invoice_total_post_gst : Option String := none
deriving DecidableEq, Repr

/-- Outcome of the external download/classify/extract pipeline for one
attachment, abstracting `SmartFileClassifier.download_and_analyze` and
`InvoicePDFProcessor.process_file_path` (network, filesystem and LLM are
collaborators): classification failure; successful `pdf_text` extraction
(carrying the original extension, downloaded size and extracted fields);
an exception raised by the text-PDF processor; a `pdf_image` or `image`
classification; or an unexpected classified type (the
`raise ValueError(f"Unsupported file type: ...")` branch). -/
inductive ProcOutcome where
  | classifyFail (err : String)
  | extracted (ext : String) (size : Nat) (d : ExtractedData)
  | extractRaise (ext : String) (msg : String)
  | pdfImage (ext : String)
  | image (ext : String)
  | unsupportedType (ft : String) (ext : Option String)
deriving DecidableEq, Repr

/-- Outcome of one iteration of the batch loop of `process_from_excel_file`:
either the per-attachment pipeline runs (with the given outcome), or an
exception escapes to the own `except` handler of the loop (lines 98-106). -/
inductive AttachmentOutcome where
  | outerRaise (msg : String)
  | proc (o : ProcOutcome)
deriving DecidableEq, Repr

/-- One entry of a per-attachment result list.  The source builds plain dicts
whose key sets differ between branches; `none` models an absent key. -/
structure ResultEntry where
  url : Option String := none
  attachment : Option String := none
  po_number : Option String := none
  grn_number : Option String := none
  supplier : Option String := none
  success : Bool := false
  status : Option String := none
  invoice_id : Option Nat := none
  vendor_name : Option String := none
  invoice_number : Option String := none
  invoice_total : Option String := none
  error : Option String := none
  file_type : Option String := none
  processing_method : Option String := none
  original_extension : Option String := none
  file_size : Option Nat := none
deriving DecidableEq, Repr

/-- Display truncation of the URL (the first 50 characters of `url` with an
ellipsis appended) as used in every result dict of the direct mode. -/
def urlDisplay (u : String) : String :=
  String.mk (u.data.take 50) ++ "..."

/-- Embedding of `SimplifiedAttachmentProcessor._save_error_record_direct`
(attachment_processor.py lines 513-531): append a failed record. -/
def saveErrorRecordDirect (db : List InvoiceRecord) (att : AttachmentInfo)
    (error_message file_type : String) (ext : Option String) : List InvoiceRecord :=
  db ++ [{ id := nextId db,
           attachment_number := slotStr att.attachment_number,
           attachment_url := att.url,
           po_number := att.po_number,
           file_type := if file_type = "" then "unknown" else file_type,
           original_file_extension := ext,
           vendor_name := "", vendor_pan := "", vendor_gst := "", invoice_number := "",
           processing_status := "failed",
           error_message := some error_message,
           source_grn := none }]

/-- Embedding of `SimplifiedAttachmentProcessor._save_extracted_data_direct`
(attachment_processor.py lines 358-429), record-level effect: append a
completed record built from the extraction result.  (The date and Decimal
field parsing of lines 383-419 is modelled separately by `coerceFinancial`;
those parsed fields are not read back by any claim.) -/
def saveExtractedDataDirect (db : List InvoiceRecord) (att : AttachmentInfo)
    (file_type : String) (ext : Option String) (d : ExtractedData) :
    InvoiceRecord × List InvoiceRecord :=
  let rec_ : InvoiceRecord :=
    { id := nextId db,
      attachment_number := slotStr att.attachment_number,
      attachment_url := att.url,
      po_number := att.po_number,
      file_type := file_type,
      original_file_extension := ext,
      vendor_name := d.vendor_name.getD "",
      vendor_pan := d.vendor_pan.getD "",
      vendor_gst := d.vendor_gst.getD "",
      invoice_number := d.invoice_number.getD "",
      processing_status := "completed",
      error_message := none,
      source_grn := none }
  (rec_, db ++ [rec_])

/-- Embedding of `SimplifiedAttachmentProcessor._process_attachment_direct`
(attachment_processor.py lines 250-356), branch by branch over the pipeline
outcome; returns the result dict and the updated store.  Every branch
persists exactly one record, and exceptions inside the method are caught by
its own `except` (lines 347-356), so the method itself never raises. -/
def process_attachment_direct (o : ProcOutcome) (att : AttachmentInfo)
    (db : List InvoiceRecord) : ResultEntry × List InvoiceRecord :=
  match o with
  | .classifyFail err =>
      ({ url := some (urlDisplay att.url), po_number := some att.po_number,
         grn_number := some att.grn_number, supplier := some att.supplier,
         success := false, error := some err, file_type := some "unknown" },
       saveErrorRecordDirect db att err "unknown" none)
  | .extracted ext _size d =>
      let (rec_, db1) := saveExtractedDataDirect db att "pdf_text" (some ext) d
      ({ url := some (urlDisplay att.url), po_number := some att.po_number,
         grn_number := some att.grn_number, supplier := some att.supplier,
         success := true, file_type := some "pdf_text",
         processing_method := some "Direct text extraction + LLM",
         invoice_id := some rec_.id,
         vendor_name := some (d.vendor_name.getD ""),
         invoice_number := some (d.invoice_number.getD ""),
         invoice_total := some (d.invoice_total_post_gst.getD "") }, db1)
  | .pdfImage ext =>
      ({ url := some (urlDisplay att.url), po_number := some att.po_number,
         success := false,
         error := some "Image-based PDF processing not enabled yet",
         file_type := some "pdf_image" },
       saveErrorRecordDirect db att
         "Image-based PDF processing not enabled yet. This PDF contains scanned images and needs OCR."
         "pdf_image" (some ext))
  | .image ext =>
      ({ url := some (urlDisplay att.url), po_number := some att.po_number,
         success := false,
         error := some "Image file processing not enabled yet",
         file_type := some "image" },
       saveErrorRecordDirect db att
         "Image file processing not enabled yet. This file needs OCR processing."
         "image" (some ext))
  | .extractRaise _ext msg =>
      ({ url := some (urlDisplay att.url), po_number := some att.po_number,
         success := false, error := some msg },
       saveErrorRecordDirect db att msg "unknown" none)
  | .unsupportedType ft _ =>
      ({ url := some (urlDisplay att.url), po_number := some att.po_number,
         success := false, error := some ("Unsupported file type: " ++ ft) },
       saveErrorRecordDirect db att ("Unsupported file type: " ++ ft) "unknown" none)

/-- One iteration of the batch loop of `process_from_excel_file`
(attachment_processor.py lines 66-106): idempotency check by attachment URL
unless `force_reprocess`, then per-attachment processing, with exceptions
converted to a failure entry. -/
def excelLoopStep (oracle : AttachmentInfo → AttachmentOutcome) (force_reprocess : Bool)
    (db : List InvoiceRecord) (att : AttachmentInfo) : ResultEntry × List InvoiceRecord :=
  match (if force_reprocess then none
         else db.find? fun r => r.attachment_url = att.url) with
  | some existing =>
      ({ url := some (urlDisplay att.url), po_number := some att.po_number,
         grn_number := some att.grn_number, supplier := some att.supplier,
         success := true, status := some "already_processed",
         invoice_id := some existing.id,
         vendor_name := some existing.vendor_name,
         invoice_number := some existing.invoice_number }, db)
  | none =>
      match oracle att with
      | .outerRaise msg =>
          ({ url := some (urlDisplay att.url), po_number := some att.po_number,
             success := false, error := some msg }, db)
      | .proc o => process_attachment_direct o att db

/-- The batch loop of `process_from_excel_file` over the (limited) attachment
list: per-attachment results in order, success and failure counters, and the
final store. -/
def processLoop (oracle : AttachmentInfo → AttachmentOutcome) (force_reprocess : Bool)
    (db : List InvoiceRecord) :
    List AttachmentInfo → List ResultEntry × Nat × Nat × List InvoiceRecord
  | [] => ([], 0, 0, db)
  | att :: rest =>
      let (entry, db1) := excelLoopStep oracle force_reprocess db att
      let (res, s, f, db2) := processLoop oracle force_reprocess db1 rest
      (entry :: res,
       (if entry.success then 1 else 0) + s,
       (if entry.success then 0 else 1) + f,
       db2)

/-- Python `l[:k]` on lists, including negative `k` (which keeps all but the
last `-k` elements). -/
def pySlice (l : List α) (k : Int) : List α :=
  if 0 ≤ k then l.take k.toNat else l.take (l.length - (-k).toNat)

/-- Aggregate result of `process_from_excel_file`
(attachment_processor.py lines 47-56 and 108-116). -/
structure BatchResult where
  success : Bool
  error : Option String := none
  total_attachments_found : Nat
  processed_attachments : Nat
  successful_extractions : Nat
  failed_extractions : Nat
  results : List ResultEntry
deriving DecidableEq, Repr

/-- Embedding of `SimplifiedAttachmentProcessor.process_from_excel_file`
(attachment_processor.py lines 30-128): extract the attachment list, fail
early when it is empty, slice it to `process_limit`, run the batch loop and
aggregate.  The pandas file read and the per-attachment pipeline are supplied
by the caller (`rows`, `oracle`); the store `db` is threaded explicitly.
(The `success_rate` display string of line 114 is presentation only and not
carried.) -/
def process_from_excel_file (oracle : AttachmentInfo → AttachmentOutcome)
    (rows : List ExcelRow) (process_limit : Int) (force_reprocess : Bool)
    (db : List InvoiceRecord) : BatchResult × List InvoiceRecord :=
  let attachment_data := extract_attachments_from_file rows
  if attachment_data.isEmpty then
    ({ success := false, error := some "No attachment URLs found in the uploaded file.",
       total_attachments_found := 0, processed_attachments := 0,
       successful_extractions := 0, failed_extractions := 0, results := [] }, db)
  else
    let attachments_to_process := pySlice attachment_data process_limit
    let (results, s, f, db1) := processLoop oracle force_reprocess db attachments_to_process
    ({ success := true,
       total_attachments_found := attachment_data.length,
       processed_attachments := attachments_to_process.length,
       successful_extractions := s,
       failed_extractions := f,
       results := results }, db1)

/- ------------------------------------------------------------------------
   Attachment Orchestrator, GRN mode
   `SimplifiedAttachmentProcessor._process_grn_attachments` and
   `_process_single_attachment` (attachment_processor.py, lines 543-770)
------------------------------------------------------------------------ -/

/-- An `ItemWiseGrn` row as read by the GRN-mode orchestrator (the Django
model class is not under `src/`; these are the fields the orchestrator and
the API views read). -/
structure GrnRecord where
  id : Nat
  po_no : String := ""
  grn_no : String := ""
  supplier : String := ""
  attachment_1 : Option String := none
  attachment_2 : Option String := none
  attachment_3 : Option String := none
  attachment_4 : Option String := none
  attachment_5 : Option String := none
deriving DecidableEq, Repr

/-- Slot access on a GRN row (`getattr` over the five attachment fields). -/
def GrnRecord.attachment (g : GrnRecord) : Nat → Option String
  | 1 => g.attachment_1
  | 2 => g.attachment_2
  | 3 => g.attachment_3
  | 4 => g.attachment_4
  | 5 => g.attachment_5
  | _ => none

/-- Embedding of `SimplifiedAttachmentProcessor._save_error_record`
(attachment_processor.py lines 751-770): GRN-mode failed record; note the
constructor passes neither the PO number nor the GRN reference. -/
def saveErrorRecordGrn (db : List InvoiceRecord) (attachment_number url : String)
    (error_message file_type : String) (ext : Option String) : List InvoiceRecord :=
  db ++ [{ id := nextId db,
           attachment_number := attachment_number,
           attachment_url := url,
           po_number := "",
           file_type := if file_type = "" then "unknown" else file_type,
           original_file_extension := ext,
           vendor_name := "", vendor_pan := "", vendor_gst := "", invoice_number := "",
           processing_status := "failed",
           error_message := some error_message,
           source_grn := none }]

/-- Embedding of `SimplifiedAttachmentProcessor._save_extracted_data`
(attachment_processor.py lines 673-749), record-level effect.  The PO number
is not passed to the constructor (a source comment defers it to the `save`
hook of the Django model, which is not under `src/`). -/
def saveExtractedDataGrn (db : List InvoiceRecord) (attachment_number url : String)
    (file_type : String) (ext : Option String) (d : ExtractedData) :
    InvoiceRecord × List InvoiceRecord :=
  let rec_ : InvoiceRecord :=
    { id := nextId db,
      attachment_number := attachment_number,
      attachment_url := url,
      po_number := "",
      file_type := file_type,
      original_file_extension := ext,
      vendor_name := d.vendor_name.getD "",
      vendor_pan := d.vendor_pan.getD "",
      vendor_gst := d.vendor_gst.getD "",
      invoice_number := d.invoice_number.getD "",
      processing_status := "completed",
      error_message := none,
      source_grn := none }
  (rec_, db ++ [rec_])

/-- Embedding of `SimplifiedAttachmentProcessor._process_single_attachment`
(attachment_processor.py lines 594-671).  `Except.error` models the
exceptions this method raises to its caller (the error message) together
with the store as updated by the error records it saved first; note the
`pdf_image` and `image` branches save an error record and then raise,
whereupon the own `except` of the method (lines 659-666) saves a second error
record before re-raising. -/
def process_single_attachment (o : ProcOutcome) (attachment_number url : String)
    (db : List InvoiceRecord) :
    Except (String × List InvoiceRecord) (ResultEntry × List InvoiceRecord) :=
  match o with
  | .classifyFail err =>
      .error (err, saveErrorRecordGrn db attachment_number url err "unknown" none)
  | .extracted ext size d =>
      let (rec_, db1) := saveExtractedDataGrn db attachment_number url "pdf_text" (some ext) d
      .ok ({ attachment := some attachment_number, success := true,
             file_type := some "pdf_text", original_extension := some ext,
             file_size := some size,
             processing_method := some "Direct text extraction + LLM",
             invoice_id := some rec_.id,
             vendor_name := some (d.vendor_name.getD ""),
             invoice_number := some (d.invoice_number.getD ""),
             invoice_total := some (d.invoice_total_post_gst.getD "") }, db1)
  | .extractRaise ext msg =>
      .error (msg, saveErrorRecordGrn db attachment_number url msg "pdf_text" (some ext))
  | .pdfImage ext =>
      let db1 := saveErrorRecordGrn db attachment_number url
        "Image-based PDF processing not enabled yet. This PDF contains scanned images and needs OCR."
        "pdf_image" (some ext)
      let msg := "Image-based PDF - OCR processing not enabled yet"
      .error (msg, saveErrorRecordGrn db1 attachment_number url msg "pdf_image" (some ext))
  | .image ext =>
      let db1 := saveErrorRecordGrn db attachment_number url
        "Image file processing not enabled yet. This file needs OCR processing."
        "image" (some ext)
      let msg := "Image file - OCR processing not enabled yet"
      .error (msg, saveErrorRecordGrn db1 attachment_number url msg "image" (some ext))
  | .unsupportedType ft ext =>
      let msg := "Unsupported file type: " ++ ft
      .error (msg, saveErrorRecordGrn db attachment_number url msg ft ext)

/-- One slot of the loop of `_process_grn_attachments` (attachment_processor.py
lines 548-583): skip empty slots; check for a prior record - the filter is
`InvoiceData.objects.filter(attachment_number=str(i))`, i.e. BY SLOT NUMBER
ONLY, with no source-GRN or URL condition; otherwise process, converting a
raised exception into a failure entry. -/
def grnSlotStep (oracle : Nat → ProcOutcome) (grn : GrnRecord) (i : Nat)
    (db : List InvoiceRecord) : Option ResultEntry × List InvoiceRecord :=
  match grn.attachment i with
  | none => (none, db)
  | some url =>
      if url = "" then (none, db)
      else
        match db.find? fun r => r.attachment_number = slotStr i with
        | some existing =>
            (some { attachment := some (slotStr i), success := true,
                    status := some "already_processed",
                    invoice_id := some existing.id,
                    vendor_name := some existing.vendor_name,
                    invoice_number := some existing.invoice_number }, db)
        | none =>
            match process_single_attachment (oracle i) (slotStr i) url db with
            | .ok (entry, db1) => (some entry, db1)
            | .error (msg, db1) =>
                (some { attachment := some (slotStr i), success := false,
                        error := some ("Attachment " ++ slotStr i ++ ": " ++ msg) }, db1)

/-- Aggregate result of `_process_grn_attachments`
(attachment_processor.py lines 587-592). -/
structure GrnBatchResult where
  grn_id : Nat
  total_attachments : Nat
  successful_attachments : Nat
  results : List ResultEntry
deriving DecidableEq, Repr

/-- Embedding of `SimplifiedAttachmentProcessor._process_grn_attachments`
(attachment_processor.py lines 543-592): loop over the five attachment slots
of one GRN row. -/
def process_grn_attachments (oracle : Nat → ProcOutcome) (grn : GrnRecord)
    (db : List InvoiceRecord) : GrnBatchResult × List InvoiceRecord :=
  let step := fun (acc : List ResultEntry × List InvoiceRecord) (i : Nat) =>
    match grnSlotStep oracle grn i acc.2 with
    | (none, db1) => (acc.1, db1)
    | (some entry, db1) => (acc.1 ++ [entry], db1)
  let (results, db1) := [1, 2, 3, 4, 5].foldl step ([], db)
  ({ grn_id := grn.id,
     total_attachments := results.length,
     successful_attachments := (results.filter fun r => r.success).length,
     results := results }, db1)

/- Concrete inputs used by witness and counterexample theorems below. -/

/-- A one-row file with a duplicated URL in slots 1 and 2 and a second URL in
slot 3 (used by the C6 witness). -/
def rowsW : List ExcelRow :=
  [{ po_no := some "P1", grn_no := some "G1", supplier := some "S",
     attachment_1 := some "https://a.example/x.pdf",
     attachment_2 := some "https://a.example/x.pdf",
     attachment_3 := some "https://a.example/y.pdf" }]

/-- Seller sub-object of the canonical schema (used by the C4 witness). -/
def sellerSchemaFields : List (String × Json) :=
  [("name", .str ""), ("gstin", .str ""), ("address", .str ""),
   ("phone", .str ""), ("email", .str "")]

/-- A seller sub-object of a sample extraction response with one known and
one unknown sub-key. -/
def sellerRespFields : List (String × Json) :=
  [("name", .str "Acme"), ("bogus", .str "x")]

/-- A sample parsed extraction response with a scalar schema key, a nested
object carrying an unknown sub-key, and an unknown top-level key. -/
def respSample : List (String × Json) :=
  [("invoice_number", .str "INV-1"),
   ("seller", .obj sellerRespFields),
   ("unknown_key", .str "y")]

/-- Whether a per-attachment pipeline outcome is the successful-extraction
one (the only outcome `_process_attachment_direct` reports as a success). -/
def procSucceeds : ProcOutcome → Bool
  | .extracted _ _ _ => true
  | _ => false

/-- The two attachments of `rowsW`, as enumerated (used by the C5 witness). -/
def attW1 : AttachmentInfo := ⟨"https://a.example/x.pdf", "P1", "G1", "S", 1, 1⟩

def attW2 : AttachmentInfo := ⟨"https://a.example/y.pdf", "P1", "G1", "S", 3, 1⟩

def attsW : List AttachmentInfo := [attW1, attW2]

/-- A pipeline oracle that raises on the first witness attachment and
extracts successfully on everything else (used by the C5 witness). -/
def oracleW : AttachmentInfo → AttachmentOutcome :=
  fun a => if a.url = "https://a.example/x.pdf" then .outerRaise "boom"
           else .proc (.extracted ".pdf" 5 {})

/-- A pipeline oracle on which every attachment extracts successfully. -/
def oracleAllOk : AttachmentInfo → AttachmentOutcome :=
  fun _ => .proc (.extracted ".pdf" 5 {})

/-- A prior AttachmentRecord from GRN 7, slot 1 (used by the C1 failing
input). -/
def invA : InvoiceRecord :=
  { id := 1, attachment_number := "1", attachment_url := "https://a.example/a.pdf",
    po_number := "PO-1", file_type := "pdf_text", original_file_extension := some ".pdf",
    vendor_name := "Acme", vendor_pan := "", vendor_gst := "",
    invoice_number := "INV-A", processing_status := "completed",
    error_message := none, source_grn := some 7 }

/-- A different GRN (id 8) with a slot-1 attachment at a different URL (used
by the C1 failing input). -/
def grnB : GrnRecord :=
  { id := 8, po_no := "PO-2", grn_no := "G-2", supplier := "Sup",
    attachment_1 := some "https://b.example/b.pdf" }

/-- A GRN-mode oracle on which every slot extracts successfully. -/
def oracleExtract : Nat → ProcOutcome := fun _ => .extracted ".pdf" 100 {}

/- ------------------------------------------------------------------------
   Claim C2 and C3: Data-Type Classifier decision order and tie handling
------------------------------------------------------------------------ -/

/-- C2: for every set of normalized column names, the classifier returns
`combined_po_grn` when the combined-indicator count is at least 3 and the PO
and GRN counts are both positive; otherwise `grn` when the GRN count strictly
exceeds the PO count; otherwise `po` when the PO count is positive; otherwise
`unknown` - evaluated in exactly that order. -/
theorem detect_data_type_decision_order (cols : List String) :
    (3 ≤ countMatches combinedIndicators cols ∧ 0 < countMatches poIndicators cols ∧
        0 < countMatches grnIndicators cols →
      detect_data_type cols = "combined_po_grn")
    ∧ (¬(3 ≤ countMatches combinedIndicators cols ∧ 0 < countMatches poIndicators cols ∧
          0 < countMatches grnIndicators cols) →
        countMatches poIndicators cols < countMatches grnIndicators cols →
        detect_data_type cols = "grn")
    ∧ (¬(3 ≤ countMatches combinedIndicators cols ∧ 0 < countMatches poIndicators cols ∧
          0 < countMatches grnIndicators cols) →
        ¬(countMatches poIndicators cols < countMatches grnIndicators cols) →
        0 < countMatches poIndicators cols →
        detect_data_type cols = "po")
    ∧ (¬(3 ≤ countMatches combinedIndicators cols ∧ 0 < countMatches poIndicators cols ∧
          0 < countMatches grnIndicators cols) →
        ¬(countMatches poIndicators cols < countMatches grnIndicators cols) →
        countMatches poIndicators cols = 0 →
        detect_data_type cols = "unknown") := by
  unfold detect_data_type
  dsimp only
  split_ifs <;> refine ⟨?_, ?_, ?_, ?_⟩ <;> intros <;> simp_all

/-- Witness for C2 at a concrete combined-report column set. -/
theorem detect_data_type_decision_order_witness :
    (3 ≤ countMatches combinedIndicators ["po_amount", "grn_amount", "po_status", "po_no", "grn_no"]
      ∧ 0 < countMatches poIndicators ["po_amount", "grn_amount", "po_status", "po_no", "grn_no"]
      ∧ 0 < countMatches grnIndicators ["po_amount", "grn_amount", "po_status", "po_no", "grn_no"])
    ∧ detect_data_type ["po_amount", "grn_amount", "po_status", "po_no", "grn_no"]
        = "combined_po_grn" :=
  ⟨by decide,
   (detect_data_type_decision_order
     ["po_amount", "grn_amount", "po_status", "po_no", "grn_no"]).1 (by decide)⟩

/-- C3 counterexample: on an exact tie between the GRN and PO indicator
counts (both positive, combined branch not firing), the classifier returns
`po`, not `grn`: the strict comparison `grn_matches > po_matches` fails on a
tie and the `po_matches > 0` branch wins. -/
theorem detect_tie_counterexample :
    countMatches grnIndicators ["po_number", "grn_number"]
        = countMatches poIndicators ["po_number", "grn_number"]
    ∧ 0 < countMatches poIndicators ["po_number", "grn_number"]
    ∧ countMatches combinedIndicators ["po_number", "grn_number"] < 3
    ∧ detect_data_type ["po_number", "grn_number"] ≠ "grn"
    ∧ detect_data_type ["po_number", "grn_number"] = "po" := by decide

/-- C3 amended: on an exact tie with positive counts and the combined branch
not firing, the classifier resolves the tie in favor of PO; GRN wins only
with strictly more GRN indicators. -/
theorem detect_tie_favors_po (cols : List String)
    (heq : countMatches grnIndicators cols = countMatches poIndicators cols)
    (hpo : 0 < countMatches poIndicators cols)
    (hnc : ¬(3 ≤ countMatches combinedIndicators cols ∧ 0 < countMatches poIndicators cols ∧
        0 < countMatches grnIndicators cols)) :
    detect_data_type cols = "po" := by
  unfold detect_data_type
  dsimp only
  split_ifs <;> simp_all

/-- Witness for the amended C3 at a concrete tied column set. -/
theorem detect_tie_favors_po_witness :
    (countMatches grnIndicators ["po_number", "grn_number"]
        = countMatches poIndicators ["po_number", "grn_number"]
      ∧ 0 < countMatches poIndicators ["po_number", "grn_number"])
    ∧ detect_data_type ["po_number", "grn_number"] = "po" :=
  ⟨by decide,
   detect_tie_favors_po ["po_number", "grn_number"] (by decide) (by decide) (by decide)⟩

/- ------------------------------------------------------------------------
   Claim C8: Document Type Checker scoring and tie-break order
------------------------------------------------------------------------ -/

/-- C8: the checker scores the text against the fixed PO and Invoice keyword
lists by case-insensitive substring containment and returns the type with the
strictly higher score; on an exact tie it falls back to the patterns, checking
the invoice family before the PO family and returning the first that matches;
with neither it returns `unknown` - so invoice classification wins ambiguous
ties over PO at the pattern stage.  Quantified over every pattern oracle and
text. -/
theorem determine_document_type_tie_break (invPat poPat : String → Bool) (text : String) :
    (keywordScore INVOICE_KEYWORDS (strToLower text) < keywordScore PO_KEYWORDS (strToLower text) →
      determine_document_type invPat poPat text = "po")
    ∧ (keywordScore PO_KEYWORDS (strToLower text) < keywordScore INVOICE_KEYWORDS (strToLower text) →
        determine_document_type invPat poPat text = "invoice")
    ∧ (keywordScore PO_KEYWORDS (strToLower text) = keywordScore INVOICE_KEYWORDS (strToLower text) →
        invPat (strToLower text) = true →
        determine_document_type invPat poPat text = "invoice")
    ∧ (keywordScore PO_KEYWORDS (strToLower text) = keywordScore INVOICE_KEYWORDS (strToLower text) →
        invPat (strToLower text) = false → poPat (strToLower text) = true →
        determine_document_type invPat poPat text = "po")
    ∧ (keywordScore PO_KEYWORDS (strToLower text) = keywordScore INVOICE_KEYWORDS (strToLower text) →
        invPat (strToLower text) = false → poPat (strToLower text) = false →
        determine_document_type invPat poPat text = "unknown") := by
  unfold determine_document_type
  dsimp only
  split_ifs <;> refine ⟨?_, ?_, ?_, ?_, ?_⟩ <;> intros <;> simp_all <;> omega

/-- Witness for C8: on empty text the scores tie at zero and with neither
pattern family matching the checker returns `unknown`. -/
theorem determine_document_type_tie_break_witness :
    (keywordScore PO_KEYWORDS (strToLower "") = keywordScore INVOICE_KEYWORDS (strToLower "")
      ∧ (fun (_ : String) => false) (strToLower "") = false)
    ∧ determine_document_type (fun _ => false) (fun _ => false) "" = "unknown" :=
  ⟨⟨by decide, rfl⟩,
   (determine_document_type_tie_break (fun _ => false) (fun _ => false) "").2.2.2.2
     (by decide) rfl rfl⟩

/- ------------------------------------------------------------------------
   Claim C7: File Classifier format-detection precedence
------------------------------------------------------------------------ -/

/-- C7: the true format is determined by matching the leading bytes against
the known magic numbers first; only if no signature matches is the declared
content-type header consulted; only if that also fails, the URL suffix; and
when none of the three stages yields a format, classification fails with the
unsupported-format error (`none`). -/
theorem detect_file_format_precedence (content : List Nat) (ct url : String) :
    (∀ f, sigDetect content = some f → detectFileFormat content ct url = some f)
    ∧ (sigDetect content = none →
        ∀ f, contentTypeDetect (strToLower ct) = some f →
          detectFileFormat content ct url = some f)
    ∧ (sigDetect content = none → contentTypeDetect (strToLower ct) = none →
        detectFileFormat content ct url = urlSuffixDetect (strToLower url))
    ∧ (sigDetect content = none → contentTypeDetect (strToLower ct) = none →
        urlSuffixDetect (strToLower url) = none →
        detectFileFormat content ct url = none) := by
  unfold detectFileFormat
  refine ⟨?_, ?_, ?_, ?_⟩ <;> intros <;> simp_all

/-- Witness for C7: a payload carrying the `%PDF` signature classifies as PDF
even under a contradicting content type and URL suffix. -/
theorem detect_file_format_precedence_witness :
    sigDetect [0x25, 0x50, 0x44, 0x46, 0x2D] = some ⟨"PDF", ".pdf"⟩
    ∧ detectFileFormat [0x25, 0x50, 0x44, 0x46, 0x2D] "image/png" "scan.jpg"
        = some ⟨"PDF", ".pdf"⟩ :=
  ⟨by decide,
   (detect_file_format_precedence [0x25, 0x50, 0x44, 0x46, 0x2D] "image/png" "scan.jpg").1
     ⟨"PDF", ".pdf"⟩ (by decide)⟩

/- ------------------------------------------------------------------------
   Claim C4: schema reconciliation of the extraction response
------------------------------------------------------------------------ -/

theorem lookupJ_setJ_self (l : List (String × Json)) (k : String) (v : Json)
    (h : (lookupJ l k).isSome) : lookupJ (setJ l k v) k = some v := by
  induction l with
  | nil => simp [lookupJ] at h
  | cons kv t ih =>
      obtain ⟨k', v'⟩ := kv
      by_cases hk : k' = k
      · simp [setJ, lookupJ, hk]
      · simp only [setJ, lookupJ, hk, if_false] at h ⊢
        exact ih h

theorem setJ_of_none (l : List (String × Json)) (k : String) (v : Json)
    (h : lookupJ l k = none) : setJ l k v = l := by
  induction l with
  | nil => rfl
  | cons kv t ih =>
      obtain ⟨k', v'⟩ := kv
      by_cases hk : k' = k
      · simp [lookupJ, hk] at h
      · simp only [setJ, hk, if_false]
        simp only [lookupJ, hk, if_false] at h
        rw [ih h]

theorem lookupJ_setJ_ne (l : List (String × Json)) (k : String) (v : Json)
    (k' : String) (h : k' ≠ k) : lookupJ (setJ l k v) k' = lookupJ l k' := by
  induction l with
  | nil => rfl
  | cons kv t ih =>
      obtain ⟨a, b⟩ := kv
      by_cases ha : a = k
      · subst ha
        simp only [setJ, if_pos rfl]
        simp only [lookupJ]
        have hna : ¬(a = k') := fun hh => h hh.symm
        simp [hna]
      · simp only [setJ, ha, if_false, lookupJ]
        by_cases hak : a = k'
        · simp [hak]
        · simp [hak, ih]

theorem lookupJ_setJ_isSome (l : List (String × Json)) (k : String) (v : Json)
    (k' : String) : (lookupJ (setJ l k v) k').isSome = (lookupJ l k').isSome := by
  by_cases h : k' = k
  · subst h
    cases h2 : lookupJ l k' with
    | none => rw [setJ_of_none l k' v h2, h2]
    | some w =>
        rw [lookupJ_setJ_self l k' v (by simp [h2])]
        simp
  · rw [lookupJ_setJ_ne l k v k' h]

theorem mergeSub_lookup_isSome (rf : List (String × Json)) :
    ∀ acc sk, (lookupJ (mergeSub acc rf) sk).isSome = (lookupJ acc sk).isSome := by
  induction rf with
  | nil => intro acc sk; rfl
  | cons kv t ih =>
      intro acc sk
      obtain ⟨k1, v1⟩ := kv
      show (lookupJ (mergeSub (if (lookupJ acc k1).isSome then setJ acc k1 v1 else acc) t)
              sk).isSome = _
      rw [ih]
      by_cases h : (lookupJ acc k1).isSome
      · simp [h, lookupJ_setJ_isSome]
      · simp [h]

theorem mergeSub_lookup_none (rf : List (String × Json)) (acc : List (String × Json))
    (sk : String) (h : lookupJ acc sk = none) : lookupJ (mergeSub acc rf) sk = none := by
  have h2 := mergeSub_lookup_isSome rf acc sk
  rw [h] at h2
  cases ho : lookupJ (mergeSub acc rf) sk with
  | none => rfl
  | some w => rw [ho] at h2; simp at h2

theorem mergeSub_not_key (t : List (String × Json)) :
    ∀ acc sk, sk ∉ keysJ t → lookupJ (mergeSub acc t) sk = lookupJ acc sk := by
  induction t with
  | nil => intro acc sk _; rfl
  | cons kv tt ih =>
      intro acc sk h
      obtain ⟨k1, v1⟩ := kv
      simp only [keysJ, List.map_cons, List.mem_cons, not_or] at h
      show lookupJ (mergeSub (if (lookupJ acc k1).isSome then setJ acc k1 v1 else acc) tt) sk = _
      rw [ih _ _ (by simpa [keysJ] using h.2)]
      by_cases hb : (lookupJ acc k1).isSome
      · simp only [hb, if_true]
        exact lookupJ_setJ_ne acc k1 v1 sk h.1
      · simp [hb]

theorem mergeSub_copies (rf : List (String × Json)) :
    ∀ acc sk rv, (keysJ rf).Nodup → lookupJ rf sk = some rv →
      (lookupJ acc sk).isSome → lookupJ (mergeSub acc rf) sk = some rv := by
  induction rf with
  | nil => intro acc sk rv _ hr _; simp [lookupJ] at hr
  | cons kv t ih =>
      intro acc sk rv hnd hr hs
      obtain ⟨k1, v1⟩ := kv
      simp only [keysJ, List.map_cons, List.nodup_cons] at hnd
      by_cases hk : k1 = sk
      · subst hk
        simp only [lookupJ, if_pos rfl] at hr
        obtain rfl : v1 = rv := by injection hr
        show lookupJ (mergeSub (if (lookupJ acc k1).isSome then setJ acc k1 v1 else acc) t) k1
            = some v1
        rw [mergeSub_not_key t _ _ (by simpa [keysJ] using hnd.1)]
        simp only [hs, if_true]
        exact lookupJ_setJ_self acc k1 v1 hs
      · simp only [lookupJ, hk, if_false] at hr
        show lookupJ (mergeSub (if (lookupJ acc k1).isSome then setJ acc k1 v1 else acc) t) sk
            = some rv
        apply ih _ _ _ hnd.2 hr
        by_cases hb : (lookupJ acc k1).isSome
        · simp only [hb, if_true]
          rw [lookupJ_setJ_isSome]
          exact hs
        · simpa [hb] using hs

theorem mergeTopStep_ne (acc : List (String × Json)) (kv : String × Json) (k : String)
    (h : kv.1 ≠ k) : lookupJ (mergeTopStep acc kv) k = lookupJ acc k := by
  unfold mergeTopStep
  cases hl : lookupJ acc kv.1 with
  | none => rfl
  | some cur =>
      cases cur <;> cases hv : kv.2 <;>
        simp only [] <;> exact lookupJ_setJ_ne acc kv.1 _ k (Ne.symm h)

theorem vac_not_key (resp : List (String × Json)) :
    ∀ acc k, k ∉ keysJ resp → lookupJ (validate_and_clean acc resp) k = lookupJ acc k := by
  induction resp with
  | nil => intro acc k _; rfl
  | cons kv t ih =>
      intro acc k h
      simp only [keysJ, List.map_cons, List.mem_cons, not_or] at h
      show lookupJ (validate_and_clean (mergeTopStep acc kv) t) k = _
      rw [ih _ _ (by simpa [keysJ] using h.2)]
      exact mergeTopStep_ne acc kv k (fun he => h.1 he.symm)

theorem vac_none (resp : List (String × Json)) :
    ∀ acc k, lookupJ acc k = none → lookupJ (validate_and_clean acc resp) k = none := by
  induction resp with
  | nil => intro acc k h; exact h
  | cons kv t ih =>
      intro acc k h
      show lookupJ (validate_and_clean (mergeTopStep acc kv) t) k = none
      apply ih
      by_cases hk : kv.1 = k
      · unfold mergeTopStep
        rw [hk, h]
        exact h
      · rw [mergeTopStep_ne acc kv k hk]
        exact h

theorem vac_overwrite (resp : List (String × Json)) :
    ∀ acc k v_s v_r, (keysJ resp).Nodup → lookupJ acc k = some v_s →
      v_s.isObj = false → lookupJ resp k = some v_r →
      lookupJ (validate_and_clean acc resp) k = some v_r := by
  induction resp with
  | nil => intro acc k vs vr _ _ _ hr; simp [lookupJ] at hr
  | cons kv t ih =>
      intro acc k vs vr hnd hs hobj hr
      obtain ⟨k1, v1⟩ := kv
      simp only [keysJ, List.map_cons, List.nodup_cons] at hnd
      by_cases hk : k1 = k
      · subst hk
        simp only [lookupJ, if_pos rfl] at hr
        obtain rfl : v1 = vr := by injection hr
        show lookupJ (validate_and_clean (mergeTopStep acc (k1, v1)) t) k1 = some v1
        rw [vac_not_key t _ _ (by simpa [keysJ] using hnd.1)]
        unfold mergeTopStep
        simp only [hs]
        cases vs <;> simp [Json.isObj] at hobj <;>
          cases v1 <;>
            exact lookupJ_setJ_self acc k1 _ (by simp [hs])
      · simp only [lookupJ, hk, if_false] at hr
        show lookupJ (validate_and_clean (mergeTopStep acc (k1, v1)) t) k = some vr
        apply ih _ _ _ _ hnd.2 _ hobj hr
        rw [mergeTopStep_ne acc (k1, v1) k hk]
        exact hs

theorem vac_objmerge (resp : List (String × Json)) :
    ∀ acc k sf rf, (keysJ resp).Nodup → lookupJ acc k = some (.obj sf) →
      lookupJ resp k = some (.obj rf) →
      lookupJ (validate_and_clean acc resp) k = some (.obj (mergeSub sf rf)) := by
  induction resp with
  | nil => intro acc k sf rf _ _ hr; simp [lookupJ] at hr
  | cons kv t ih =>
      intro acc k sf rf hnd hs hr
      obtain ⟨k1, v1⟩ := kv
      simp only [keysJ, List.map_cons, List.nodup_cons] at hnd
      by_cases hk : k1 = k
      · subst hk
        simp only [lookupJ, if_pos rfl] at hr
        obtain rfl : v1 = Json.obj rf := by injection hr
        show lookupJ (validate_and_clean (mergeTopStep acc (k1, Json.obj rf)) t) k1
            = some (.obj (mergeSub sf rf))
        rw [vac_not_key t _ _ (by simpa [keysJ] using hnd.1)]
        unfold mergeTopStep
        simp only [hs]
        exact lookupJ_setJ_self acc k1 _ (by simp [hs])
      · simp only [lookupJ, hk, if_false] at hr
        show lookupJ (validate_and_clean (mergeTopStep acc (k1, v1)) t) k
            = some (.obj (mergeSub sf rf))
        apply ih _ _ _ _ hnd.2 _ hr
        rw [mergeTopStep_ne acc (k1, v1) k hk]
        exact hs

/-- C4: reconciling a parsed extraction response against the canonical
invoice schema copies a top-level key only when the schema knows it (unknown
top-level keys are ignored: the reconciled object has no key outside the
schema); a schema key holding a nested object merged with a response object
proceeds key-by-key, copying exactly the response sub-keys the schema knows
and silently dropping unknown sub-keys; scalar and array schema keys are
overwritten wholesale by the response value. -/
theorem validate_and_clean_schema_merge (resp : List (String × Json))
    (hresp : (keysJ resp).Nodup) :
    (∀ k, lookupJ invoice_schema k = none →
      lookupJ (validate_and_clean invoice_schema resp) k = none)
    ∧ (∀ k v_s v_r, lookupJ invoice_schema k = some v_s → v_s.isObj = false →
        lookupJ resp k = some v_r →
        lookupJ (validate_and_clean invoice_schema resp) k = some v_r)
    ∧ (∀ k sf rf, lookupJ invoice_schema k = some (.obj sf) →
        lookupJ resp k = some (.obj rf) → (keysJ rf).Nodup →
        lookupJ (validate_and_clean invoice_schema resp) k = some (.obj (mergeSub sf rf))
        ∧ (∀ sk, lookupJ sf sk = none → lookupJ (mergeSub sf rf) sk = none)
        ∧ (∀ sk rv, (lookupJ sf sk).isSome → lookupJ rf sk = some rv →
            lookupJ (mergeSub sf rf) sk = some rv)) := by
  refine ⟨?_, ?_, ?_⟩
  · intro k h
    exact vac_none resp invoice_schema k h
  · intro k vs vr hs hobj hr
    exact vac_overwrite resp invoice_schema k vs vr hresp hs hobj hr
  · intro k sf rf hs hr hnd
    refine ⟨vac_objmerge resp invoice_schema k sf rf hresp hs hr, ?_, ?_⟩
    · intro sk h
      exact mergeSub_lookup_none rf sf sk h
    · intro sk rv h hr2
      exact mergeSub_copies rf sf sk rv hnd hr2 h

/-- Witness for C4 on a concrete response: the unknown top-level key is
ignored, the scalar key is overwritten wholesale, the seller object is merged
sub-key by sub-key, the unknown sub-key is dropped and the known sub-key is
copied. -/
theorem validate_and_clean_schema_merge_witness :
    (keysJ respSample).Nodup
    ∧ lookupJ invoice_schema "unknown_key" = none
    ∧ lookupJ (validate_and_clean invoice_schema respSample) "unknown_key" = none
    ∧ lookupJ (validate_and_clean invoice_schema respSample) "invoice_number"
        = some (Json.str "INV-1")
    ∧ lookupJ (validate_and_clean invoice_schema respSample) "seller"
        = some (Json.obj (mergeSub sellerSchemaFields sellerRespFields))
    ∧ lookupJ (mergeSub sellerSchemaFields sellerRespFields) "bogus" = none
    ∧ lookupJ (mergeSub sellerSchemaFields sellerRespFields) "name"
        = some (Json.str "Acme") := by
  have h := validate_and_clean_schema_merge respSample (by decide)
  have hsel := h.2.2 "seller" sellerSchemaFields sellerRespFields rfl rfl (by decide)
  exact ⟨by decide, rfl, h.1 "unknown_key" rfl,
    h.2.1 "invoice_number" (Json.str "") (Json.str "INV-1") rfl rfl rfl,
    hsel.1, hsel.2.1 "bogus" rfl, hsel.2.2 "name" (Json.str "Acme") rfl rfl⟩

/- ------------------------------------------------------------------------
   Claim C9: numeric field coercion
------------------------------------------------------------------------ -/

/-- C9 counterexample: the quantity path strips only commas, so a quantity
string carrying a percent sign is skipped (`Decimal("5%")` raises and is
caught, leaving the field unset), while the claimed policy of stripping
percent signs would coerce it to 5. -/
theorem numeric_coercion_counterexample :
    coerceQuantity "5%" = none
    ∧ claimedNumericCoerce "5%" = some ⟨5, 0⟩
    ∧ (PyDecimal.mk 5 0).toRat = 5 :=
  ⟨by decide, by decide, by norm_num [PyDecimal.toRat]⟩

/-- C9 amended: the financial-field coercion strips thousands-separators, the
rupee sign and percent signs exactly as the claim states; the quantity
coercion strips only thousands-separators and the unit-price coercion only
separators and the rupee sign; in every path an input that is empty, blank
after cleaning, or non-numeric is skipped (`none`, field left unset - the
model is total, so nothing is raised); `"1,250.00"` coerces to the decimal
1250.00 and `"N/A"` leaves the field unset. -/
theorem numeric_coercion_policy (s : String) :
    coerceFinancial (some s) = claimedNumericCoerce s
    ∧ (pyStrip (strRemoveChar s ',') = "" → coerceQuantity s = none)
    ∧ coerceQuantity "1,250.00" = some ⟨125000, 2⟩
    ∧ (PyDecimal.mk 125000 2).toRat = 1250
    ∧ coerceQuantity "N/A" = none
    ∧ coerceUnitPrice "₹7,5" = some ⟨75, 0⟩
    ∧ coerceUnitPrice "7%" = none := by
  refine ⟨rfl, ?_, by decide, by norm_num [PyDecimal.toRat], by decide, by decide, by decide⟩
  intro h
  by_cases hs : s = ""
  · simp [coerceQuantity, hs]
  · simp [coerceQuantity, hs, h]

/-- Witness for the amended C9 at a quantity string that is blank after the
comma stripping. -/
theorem numeric_coercion_policy_witness :
    pyStrip (strRemoveChar " ,," ',') = "" ∧ coerceQuantity " ,," = none :=
  ⟨by decide, (numeric_coercion_policy " ,,").2.1 (by decide)⟩


/- ------------------------------------------------------------------------
   Claim C6: URL enumeration, deduplication and truncation
------------------------------------------------------------------------ -/

theorem dedupByUrl_sublist (l : List AttachmentInfo) :
    ∀ seen, List.Sublist (dedupByUrl seen l) l := by
  induction l with
  | nil => intro seen; simp [dedupByUrl]
  | cons a t ih =>
      intro seen
      simp only [dedupByUrl]
      by_cases h : seen.contains a.url = true
      · rw [if_pos h]
        exact (ih seen).cons a
      · rw [if_neg h]
        exact (ih (a.url :: seen)).cons₂ a

theorem dedupByUrl_not_seen (l : List AttachmentInfo) :
    ∀ seen a, a ∈ dedupByUrl seen l → seen.contains a.url = false := by
  induction l with
  | nil => intro seen a h; simp [dedupByUrl] at h
  | cons b t ih =>
      intro seen a h
      simp only [dedupByUrl] at h
      by_cases hb : seen.contains b.url = true
      · rw [if_pos hb] at h
        exact ih seen a h
      · rw [if_neg hb] at h
        rcases List.mem_cons.mp h with rfl | h
        · simpa using hb
        · have h2 := ih (b.url :: seen) a h
          rw [List.contains_cons] at h2
          exact (Bool.or_eq_false_iff.mp h2).2

theorem dedupByUrl_map_nodup (l : List AttachmentInfo) :
    ∀ seen, ((dedupByUrl seen l).map AttachmentInfo.url).Nodup := by
  induction l with
  | nil => intro seen; simp [dedupByUrl]
  | cons b t ih =>
      intro seen
      simp only [dedupByUrl]
      by_cases hb : seen.contains b.url = true
      · rw [if_pos hb]
        exact ih seen
      · rw [if_neg hb]
        rw [List.map_cons, List.nodup_cons]
        refine ⟨?_, ih _⟩
        intro hmem
        obtain ⟨a, ha, hau⟩ := List.mem_map.mp hmem
        have h2 := dedupByUrl_not_seen t (b.url :: seen) a ha
        rw [List.contains_cons] at h2
        have h3 := (Bool.or_eq_false_iff.mp h2).1
        rw [hau] at h3
        simp at h3

theorem dedupByUrl_mem_url (l : List AttachmentInfo) :
    ∀ seen u, u ∈ (dedupByUrl seen l).map AttachmentInfo.url ↔
      (u ∈ l.map AttachmentInfo.url ∧ seen.contains u = false) := by
  induction l with
  | nil => intro seen u; simp [dedupByUrl]
  | cons b t ih =>
      intro seen u
      simp only [dedupByUrl]
      by_cases hb : seen.contains b.url = true
      · rw [if_pos hb]
        rw [ih, List.map_cons]
        constructor
        · rintro ⟨h1, h2⟩
          exact ⟨List.mem_cons_of_mem _ h1, h2⟩
        · rintro ⟨h1, h2⟩
          rcases List.mem_cons.mp h1 with rfl | h1
          · rw [h2] at hb; exact absurd hb (by simp)
          · exact ⟨h1, h2⟩
      · rw [if_neg hb]
        rw [List.map_cons, List.map_cons]
        constructor
        · intro h
          rcases List.mem_cons.mp h with rfl | h
          · exact ⟨List.mem_cons_self _ _, by simpa using hb⟩
          · obtain ⟨h1, h2⟩ := (ih _ u).mp h
            rw [List.contains_cons] at h2
            exact ⟨List.mem_cons_of_mem _ h1, (Bool.or_eq_false_iff.mp h2).2⟩
        · rintro ⟨h1, h2⟩
          rcases List.mem_cons.mp h1 with rfl | h1
          · exact List.mem_cons_self _ _
          · by_cases he : u = b.url
            · rw [he]; exact List.mem_cons_self _ _
            · refine List.mem_cons_of_mem _ ((ih _ u).mpr ⟨h1, ?_⟩)
              rw [List.contains_cons, Bool.or_eq_false_iff]
              exact ⟨by simpa using he, h2⟩

theorem dedupByUrl_find (l : List AttachmentInfo) :
    ∀ seen a, a ∈ dedupByUrl seen l →
      l.find? (fun b => b.url == a.url) = some a := by
  induction l with
  | nil => intro seen a h; simp [dedupByUrl] at h
  | cons b t ih =>
      intro seen a h
      simp only [dedupByUrl] at h
      by_cases hb : seen.contains b.url = true
      · rw [if_pos hb] at h
        have hne : (b.url == a.url) = false := by
          have hfs := dedupByUrl_not_seen t seen a h
          by_cases he : b.url = a.url
          · rw [he] at hb; rw [hfs] at hb; exact absurd hb (by simp)
          · simpa using he
        rw [List.find?_cons_of_neg _ (by simp [hne])]
        exact ih seen a h
      · rw [if_neg hb] at h
        rcases List.mem_cons.mp h with rfl | h
        · exact List.find?_cons_of_pos _ (by simp)
        · have hfs := dedupByUrl_not_seen t (b.url :: seen) a h
          rw [List.contains_cons] at hfs
          have h3 := (Bool.or_eq_false_iff.mp hfs).1
          have hne2 : ¬(b.url == a.url) = true := by
            intro hbe
            have hequ : b.url = a.url := by simpa using hbe
            rw [hequ] at h3
            simp at h3
          rw [List.find?_cons_of_neg _ (by exact hne2)]
          exact ih (b.url :: seen) a h

theorem slotAttachment_eq_some (n : Nat) (r : ExcelRow) (p : String) (i : Nat)
    (a : AttachmentInfo) :
    slotAttachment n r p i = some a ↔
      ∃ u, r.attachment i = some u
        ∧ (u ≠ "" && pyStrip u ≠ "") = true
        ∧ (strStartsWith (pyStrip u) "http://"
            || strStartsWith (pyStrip u) "https://") = true
        ∧ a = ⟨pyStrip u, pyStrip p, grnDefault r, supplierDefault r, i, n + 1⟩ := by
  constructor
  · intro hf
    unfold slotAttachment at hf
    cases hu : r.attachment i with
    | none => rw [hu] at hf; dsimp only at hf; simp at hf
    | some u =>
        rw [hu] at hf
        dsimp only at hf
        by_cases h1 : (u ≠ "" && pyStrip u ≠ "") = true
        · rw [if_pos h1] at hf
          by_cases h2 : (strStartsWith (pyStrip u) "http://"
              || strStartsWith (pyStrip u) "https://") = true
          · rw [if_pos h2] at hf
            exact ⟨u, rfl, h1, h2, (Option.some.inj hf).symm⟩
          · rw [if_neg h2] at hf; simp at hf
        · rw [if_neg h1] at hf; simp at hf
  · rintro ⟨u, hu, h1, h2, rfl⟩
    unfold slotAttachment
    rw [hu]
    dsimp only
    rw [if_pos h1, if_pos h2]

theorem rowAttachments_mem (n : Nat) (r : ExcelRow) (a : AttachmentInfo) :
    a ∈ rowAttachments n r ↔
      ∃ p u i, i ∈ ([1, 2, 3, 4, 5] : List Nat)
        ∧ r.po_no = some p ∧ p ≠ ""
        ∧ r.attachment i = some u
        ∧ (u ≠ "" && pyStrip u ≠ "") = true
        ∧ (strStartsWith (pyStrip u) "http://"
            || strStartsWith (pyStrip u) "https://") = true
        ∧ a = ⟨pyStrip u, pyStrip p, grnDefault r, supplierDefault r, i, n + 1⟩ := by
  cases hpo : r.po_no with
  | none => simp [rowAttachments, hpo]
  | some p =>
      simp only [rowAttachments, hpo]
      by_cases hp : p = ""
      · rw [if_pos hp]
        constructor
        · intro h; simp at h
        · rintro ⟨p', u, i, hi, hpo', hp', _⟩
          obtain rfl : p = p' := Option.some.inj hpo'
          exact absurd hp hp'
      · rw [if_neg hp]
        rw [List.mem_filterMap]
        constructor
        · rintro ⟨i, hi, hf⟩
          obtain ⟨u, hu, h1, h2, ha⟩ := (slotAttachment_eq_some n r p i a).mp hf
          exact ⟨p, u, i, hi, rfl, hp, hu, h1, h2, ha⟩
        · rintro ⟨p', u, i, hi, hpo', hp', hu, h1, h2, ha⟩
          obtain rfl : p = p' := Option.some.inj hpo'
          exact ⟨i, hi, (slotAttachment_eq_some n r p i a).mpr ⟨u, hu, h1, h2, ha⟩⟩

theorem extractAllFrom_mem (rows : List ExcelRow) :
    ∀ idx a, a ∈ extractAllFrom idx rows ↔
      ∃ m r, rows.get? m = some r ∧ a ∈ rowAttachments (idx + m) r := by
  induction rows with
  | nil => intro idx a; simp [extractAllFrom]
  | cons r t ih =>
      intro idx a
      simp only [extractAllFrom, List.mem_append, ih]
      constructor
      · rintro (h | ⟨m, rr, hg, hm⟩)
        · exact ⟨0, r, rfl, by simpa using h⟩
        · refine ⟨m + 1, rr, by simpa using hg, ?_⟩
          have harith : idx + 1 + m = idx + (m + 1) := by omega
          rwa [harith] at hm
      · rintro ⟨m, rr, hg, hm⟩
        cases m with
        | zero =>
            left
            obtain rfl : r = rr := by simpa using hg
            simpa using hm
        | succ k =>
            right
            refine ⟨k, rr, by simpa using hg, ?_⟩
            have harith : idx + (k + 1) = idx + 1 + k := by omega
            rwa [harith] at hm

/-- C6 counterexample: a row with a non-empty attachment URL but no PO-number
cell contributes nothing, so the enumeration is not over every non-empty
attachment URL. -/
theorem extract_attachments_counterexample :
    ({ po_no := none, attachment_1 := some "https://a.example/i.pdf" } : ExcelRow).attachment_1
        = some "https://a.example/i.pdf"
    ∧ "https://a.example/i.pdf" ≠ ""
    ∧ extract_attachments_from_file
        [{ po_no := none, attachment_1 := some "https://a.example/i.pdf" }] = [] := by
  decide

/-- C6 amended: the orchestrator enumerates, in row-then-slot order, exactly
the attachment URLs in up to 5 slots per row that sit in a row with a present
and truthy PO-number cell, are truthy and non-blank after stripping, and
start with `http://` or `https://`; it deduplicates by URL with the first
occurrence winning and encounter order preserved, and truncates the result to
the given (non-negative) limit before processing. -/
theorem extract_attachments_enumeration (rows : List ExcelRow) :
    (∀ (n : Nat) (r : ExcelRow) (a : AttachmentInfo),
      a ∈ rowAttachments n r ↔
        ∃ p u i, i ∈ ([1, 2, 3, 4, 5] : List Nat)
          ∧ r.po_no = some p ∧ p ≠ ""
          ∧ r.attachment i = some u
          ∧ (u ≠ "" && pyStrip u ≠ "") = true
          ∧ (strStartsWith (pyStrip u) "http://"
              || strStartsWith (pyStrip u) "https://") = true
          ∧ a = ⟨pyStrip u, pyStrip p, grnDefault r, supplierDefault r, i, n + 1⟩)
    ∧ (∀ a, a ∈ extractAllAttachments rows ↔
        ∃ m r, rows.get? m = some r ∧ a ∈ rowAttachments m r)
    ∧ List.Sublist (extract_attachments_from_file rows) (extractAllAttachments rows)
    ∧ ((extract_attachments_from_file rows).map AttachmentInfo.url).Nodup
    ∧ (∀ u, u ∈ (extract_attachments_from_file rows).map AttachmentInfo.url ↔
        u ∈ (extractAllAttachments rows).map AttachmentInfo.url)
    ∧ (∀ a, a ∈ extract_attachments_from_file rows →
        (extractAllAttachments rows).find? (fun b => b.url == a.url) = some a)
    ∧ (∀ limit : Int, 0 ≤ limit →
        pySlice (extract_attachments_from_file rows) limit
          = (extract_attachments_from_file rows).take limit.toNat) := by
  refine ⟨rowAttachments_mem, ?_, ?_, ?_, ?_, ?_, ?_⟩
  · intro a
    have h := extractAllFrom_mem rows 0 a
    simpa [extractAllAttachments] using h
  · exact dedupByUrl_sublist _ []
  · exact dedupByUrl_map_nodup _ []
  · intro u
    have h := dedupByUrl_mem_url (extractAllAttachments rows) [] u
    simpa [extract_attachments_from_file] using h
  · intro a ha
    exact dedupByUrl_find _ [] a ha
  · intro limit hl
    simp [pySlice, hl]

/-- Witness for the amended C6 on a concrete file: the duplicated URL is kept
once with its first occurrence, and a non-negative limit truncates by
`take`. -/
theorem extract_attachments_enumeration_witness :
    ((⟨"https://a.example/x.pdf", "P1", "G1", "S", 1, 1⟩ : AttachmentInfo)
        ∈ extract_attachments_from_file rowsW)
    ∧ (extractAllAttachments rowsW).find?
        (fun b => b.url == (⟨"https://a.example/x.pdf", "P1", "G1", "S", 1, 1⟩ :
            AttachmentInfo).url)
        = some ⟨"https://a.example/x.pdf", "P1", "G1", "S", 1, 1⟩
    ∧ pySlice (extract_attachments_from_file rowsW) 2
        = (extract_attachments_from_file rowsW).take (2 : Int).toNat := by
  refine ⟨by decide, ?_, ?_⟩
  · exact (extract_attachments_enumeration rowsW).2.2.2.2.2.1 _ (by decide)
  · exact (extract_attachments_enumeration rowsW).2.2.2.2.2.2 2 (by decide)

/- ------------------------------------------------------------------------
   Claims C5, C10, C1: batch loop isolation, counters, idempotency keying
------------------------------------------------------------------------ -/

theorem processLoop_cons (oracle : AttachmentInfo → AttachmentOutcome) (force : Bool)
    (db : List InvoiceRecord) (a : AttachmentInfo) (t : List AttachmentInfo) :
    processLoop oracle force db (a :: t)
      = ((excelLoopStep oracle force db a).1
            :: (processLoop oracle force (excelLoopStep oracle force db a).2 t).1,
         (if (excelLoopStep oracle force db a).1.success then 1 else 0)
            + (processLoop oracle force (excelLoopStep oracle force db a).2 t).2.1,
         (if (excelLoopStep oracle force db a).1.success then 0 else 1)
            + (processLoop oracle force (excelLoopStep oracle force db a).2 t).2.2.1,
         (processLoop oracle force (excelLoopStep oracle force db a).2 t).2.2.2) := rfl

theorem countP_bool_split (l : List ResultEntry) :
    l.countP (fun e => e.success) + l.countP (fun e => !e.success) = l.length := by
  induction l with
  | nil => simp
  | cons e t ih =>
      by_cases h : e.success = true <;>
        simp [List.countP_cons, h] <;> omega

theorem processLoop_spec (oracle : AttachmentInfo → AttachmentOutcome) (force : Bool) :
    ∀ (atts : List AttachmentInfo) (db : List InvoiceRecord),
      ((processLoop oracle force db atts).1).length = atts.length
      ∧ (processLoop oracle force db atts).2.1
          = (processLoop oracle force db atts).1.countP (fun e => e.success)
      ∧ (processLoop oracle force db atts).2.2.1
          = (processLoop oracle force db atts).1.countP (fun e => !e.success) := by
  intro atts
  induction atts with
  | nil => intro db; simp [processLoop]
  | cons a t ih =>
      intro db
      have ihh := ih (excelLoopStep oracle force db a).2
      rw [processLoop_cons]
      dsimp only
      refine ⟨by simp [ihh.1], ?_, ?_⟩
      · rw [ihh.2.1, List.countP_cons]
        by_cases h : (excelLoopStep oracle force db a).1.success = true <;>
          simp [h] <;> omega
      · rw [ihh.2.2, List.countP_cons]
        by_cases h : (excelLoopStep oracle force db a).1.success = true <;>
          simp [h] <;> omega

theorem mem_saveErrorRecordDirect (db : List InvoiceRecord) (att : AttachmentInfo)
    (em ft : String) (ext : Option String) (r : InvoiceRecord)
    (hr : r ∈ saveErrorRecordDirect db att em ft ext) :
    r ∈ db ∨ r.attachment_url = att.url := by
  rcases List.mem_append.mp hr with h | h
  · exact Or.inl h
  · right
    obtain rfl := List.mem_singleton.mp h
    rfl

theorem mem_saveExtractedDataDirect (db : List InvoiceRecord) (att : AttachmentInfo)
    (ft : String) (ext : Option String) (d : ExtractedData) (r : InvoiceRecord)
    (hr : r ∈ (saveExtractedDataDirect db att ft ext d).2) :
    r ∈ db ∨ r.attachment_url = att.url := by
  rcases List.mem_append.mp hr with h | h
  · exact Or.inl h
  · right
    obtain rfl := List.mem_singleton.mp h
    rfl

theorem process_attachment_direct_db_urls (o : ProcOutcome) (att : AttachmentInfo)
    (db : List InvoiceRecord) (r : InvoiceRecord)
    (hr : r ∈ (process_attachment_direct o att db).2) :
    r ∈ db ∨ r.attachment_url = att.url := by
  cases o with
  | classifyFail err => exact mem_saveErrorRecordDirect db att _ _ _ r hr
  | extracted ext size d => exact mem_saveExtractedDataDirect db att _ _ _ r hr
  | extractRaise ext msg => exact mem_saveErrorRecordDirect db att _ _ _ r hr
  | pdfImage ext => exact mem_saveErrorRecordDirect db att _ _ _ r hr
  | image ext => exact mem_saveErrorRecordDirect db att _ _ _ r hr
  | unsupportedType ft ext => exact mem_saveErrorRecordDirect db att _ _ _ r hr

theorem excelLoopStep_db_urls (oracle : AttachmentInfo → AttachmentOutcome) (force : Bool)
    (db : List InvoiceRecord) (att : AttachmentInfo) (r : InvoiceRecord)
    (hr : r ∈ (excelLoopStep oracle force db att).2) :
    r ∈ db ∨ r.attachment_url = att.url := by
  unfold excelLoopStep at hr
  rcases hm : (if force = true then none
      else db.find? fun rr => rr.attachment_url = att.url) with _ | ex
  · rw [hm] at hr
    cases ho : oracle att with
    | outerRaise msg => rw [ho] at hr; exact Or.inl hr
    | proc o =>
        rw [ho] at hr
        exact process_attachment_direct_db_urls o att db r hr
  · rw [hm] at hr
    exact Or.inl hr

theorem excelLoopStep_fresh (oracle : AttachmentInfo → AttachmentOutcome) (force : Bool)
    (db : List InvoiceRecord) (att : AttachmentInfo)
    (hf : ∀ r ∈ db, r.attachment_url ≠ att.url) :
    excelLoopStep oracle force db att
      = match oracle att with
        | .outerRaise msg =>
            ({ url := some (urlDisplay att.url), po_number := some att.po_number,
               success := false, error := some msg }, db)
        | .proc o => process_attachment_direct o att db := by
  unfold excelLoopStep
  have hfind : (db.find? fun r => r.attachment_url = att.url) = none := by
    rw [List.find?_eq_none]
    intro r hr
    simpa using hf r hr
  by_cases hforce : force = true
  · rw [if_pos hforce]
  · rw [if_neg hforce, hfind]

theorem process_attachment_direct_success (o : ProcOutcome) (att : AttachmentInfo)
    (db : List InvoiceRecord) :
    (process_attachment_direct o att db).1.success = procSucceeds o := by
  cases o <;> rfl

theorem processLoop_fresh_spec (oracle : AttachmentInfo → AttachmentOutcome) (force : Bool) :
    ∀ (atts : List AttachmentInfo) (db : List InvoiceRecord),
      (atts.map AttachmentInfo.url).Nodup →
      (∀ a ∈ atts, ∀ r ∈ db, r.attachment_url ≠ a.url) →
      ∀ i att, atts.get? i = some att →
        ∃ e, (processLoop oracle force db atts).1.get? i = some e
          ∧ (∀ msg, oracle att = .outerRaise msg → e.success = false ∧ e.error = some msg)
          ∧ (∀ o, oracle att = .proc o → e.success = procSucceeds o) := by
  intro atts
  induction atts with
  | nil => intro db _ _ i att h; simp at h
  | cons a t ih =>
      intro db hnd hfresh i att hget
      have hstep := excelLoopStep_fresh oracle force db a (hfresh a (List.mem_cons_self a t))
      cases i with
      | zero =>
          obtain rfl : a = att := by simpa using hget
          refine ⟨(excelLoopStep oracle force db a).1, ?_, ?_, ?_⟩
          · rw [processLoop_cons]
            rfl
          · intro msg ho
            rw [hstep, ho]
            exact ⟨rfl, rfl⟩
          · intro o ho
            rw [hstep, ho]
            exact process_attachment_direct_success o a db
      | succ j =>
          have hget2 : t.get? j = some att := by simpa using hget
          have hnd2 : (t.map AttachmentInfo.url).Nodup := by
            simpa using (List.nodup_cons.mp (by simpa using hnd)).2
          have hfresh2 : ∀ x ∈ t, ∀ r ∈ (excelLoopStep oracle force db a).2,
              r.attachment_url ≠ x.url := by
            intro x hx r hr
            rcases excelLoopStep_db_urls oracle force db a r hr with h | h
            · exact hfresh x (List.mem_cons_of_mem _ hx) r h
            · rw [h]
              intro he
              have hmem : a.url ∈ t.map AttachmentInfo.url :=
                List.mem_map.mpr ⟨x, hx, he.symm⟩
              exact (List.nodup_cons.mp (by simpa using hnd)).1 hmem
          obtain ⟨e, he1, he2, he3⟩ :=
            ih (excelLoopStep oracle force db a).2 hnd2 hfresh2 j att hget2
          refine ⟨e, ?_, he2, he3⟩
          rw [processLoop_cons]
          simpa using he1

/-- C5: for every batch of enumerated attachments whose URLs are distinct and
not yet persisted, the batch loop returns (never raises) with exactly one
result entry per attachment; an attachment whose processing raises an
exception yields an entry marked failed carrying the error text, and every
other attachment is processed unaffected - in particular one whose pipeline
extracts successfully yields a success entry; an entry is a success exactly
when its pipeline outcome is the successful extraction. -/
theorem batch_partial_failure_isolation (oracle : AttachmentInfo → AttachmentOutcome)
    (force : Bool) (db : List InvoiceRecord) (atts : List AttachmentInfo)
    (hnodup : (atts.map AttachmentInfo.url).Nodup)
    (hfresh : ∀ a ∈ atts, ∀ r ∈ db, r.attachment_url ≠ a.url) :
    (processLoop oracle force db atts).1.length = atts.length
    ∧ (∀ i att, atts.get? i = some att →
        ∃ e, (processLoop oracle force db atts).1.get? i = some e
          ∧ (∀ msg, oracle att = .outerRaise msg → e.success = false ∧ e.error = some msg)
          ∧ (∀ o, oracle att = .proc o → e.success = procSucceeds o)) :=
  ⟨(processLoop_spec oracle force atts db).1,
   processLoop_fresh_spec oracle force atts db hnodup hfresh⟩

/-- Witness for C5: in a two-attachment batch where the first attachment's
processing raises and the second extracts, the loop yields two entries, the
first failed with the error text and the second successful. -/
theorem batch_partial_failure_isolation_witness :
    ((attsW.map AttachmentInfo.url).Nodup
      ∧ (∀ a ∈ attsW, ∀ r ∈ ([] : List InvoiceRecord), r.attachment_url ≠ a.url))
    ∧ (processLoop oracleW false [] attsW).1.length = attsW.length
    ∧ (∃ e, (processLoop oracleW false [] attsW).1.get? 0 = some e
        ∧ e.success = false ∧ e.error = some "boom")
    ∧ (∃ e, (processLoop oracleW false [] attsW).1.get? 1 = some e
        ∧ e.success = true) := by
  have h := batch_partial_failure_isolation oracleW false [] attsW (by decide) (by simp)
  refine ⟨⟨by decide, by simp⟩, h.1, ?_, ?_⟩
  · obtain ⟨e, he, hf, _⟩ := h.2 0 attW1 rfl
    exact ⟨e, he, (hf "boom" (by decide)).1, (hf "boom" (by decide)).2⟩
  · obtain ⟨e, he, _, hs⟩ := h.2 1 attW2 rfl
    exact ⟨e, he, (hs (.extracted ".pdf" 5 {}) (by decide)).trans rfl⟩

theorem excelLoopStep_already (oracle : AttachmentInfo → AttachmentOutcome) (force : Bool)
    (db : List InvoiceRecord) (att : AttachmentInfo)
    (h : (excelLoopStep oracle force db att).1.status = some "already_processed") :
    (excelLoopStep oracle force db att).1.success = true := by
  unfold excelLoopStep at h ⊢
  rcases hm : (if force = true then none
      else db.find? fun rr => rr.attachment_url = att.url) with _ | ex
  · rw [hm] at h
    exfalso
    cases ho : oracle att with
    | outerRaise msg => rw [ho] at h; simp at h
    | proc o =>
        rw [ho] at h
        revert h
        cases o <;> simp [process_attachment_direct, saveExtractedDataDirect]
  · rw [hm]

theorem processLoop_already (oracle : AttachmentInfo → AttachmentOutcome) (force : Bool) :
    ∀ (atts : List AttachmentInfo) (db : List InvoiceRecord) (e : ResultEntry),
      e ∈ (processLoop oracle force db atts).1 →
      e.status = some "already_processed" → e.success = true := by
  intro atts
  induction atts with
  | nil => intro db e he _; simp [processLoop] at he
  | cons a t ih =>
      intro db e he hst
      rw [processLoop_cons] at he
      rcases List.mem_cons.mp he with rfl | he
      · exact excelLoopStep_already oracle force db a hst
      · exact ih _ e he hst

theorem process_from_excel_file_nonempty (oracle : AttachmentInfo → AttachmentOutcome)
    (rows : List ExcelRow) (limit : Int) (force : Bool) (db : List InvoiceRecord)
    (hd : (extract_attachments_from_file rows).isEmpty = false) :
    process_from_excel_file oracle rows limit force db
      = ({ success := true,
           total_attachments_found := (extract_attachments_from_file rows).length,
           processed_attachments := (pySlice (extract_attachments_from_file rows) limit).length,
           successful_extractions :=
             (processLoop oracle force db (pySlice (extract_attachments_from_file rows) limit)).2.1,
           failed_extractions :=
             (processLoop oracle force db (pySlice (extract_attachments_from_file rows) limit)).2.2.1,
           results :=
             (processLoop oracle force db (pySlice (extract_attachments_from_file rows) limit)).1 },
         (processLoop oracle force db (pySlice (extract_attachments_from_file rows) limit)).2.2.2) := by
  unfold process_from_excel_file
  dsimp only
  rw [hd]
  rfl

/-- C10 counterexample: a successful batch run over 2 found attachments with
`process_limit = -1` processes 1 attachment (Python's negative slice drops
the last element), while the claimed `min(process_limit, total)` is -1. -/
theorem batch_counters_counterexample :
    (process_from_excel_file oracleAllOk rowsW (-1) false []).1.success = true
    ∧ (process_from_excel_file oracleAllOk rowsW (-1) false []).1.total_attachments_found = 2
    ∧ (process_from_excel_file oracleAllOk rowsW (-1) false []).1.processed_attachments = 1
    ∧ ((process_from_excel_file oracleAllOk rowsW (-1) false []).1.processed_attachments : Int)
        ≠ min (-1 : Int)
            ((process_from_excel_file oracleAllOk rowsW (-1) false []).1.total_attachments_found
              : Int) := by
  refine ⟨by decide, by decide, by decide, by decide⟩

/-- C10 amended: for every batch run of `process_from_excel_file` that
returns with `success` true, the counters satisfy
`successful_extractions + failed_extractions = processed_attachments`, the
results list has exactly `processed_attachments` entries,
`successful_extractions` counts exactly the success-marked results (with
already-processed attachments among them: every `already_processed` entry is
marked a success), and - whenever `process_limit` is non-negative -
`processed_attachments = min(process_limit, total_attachments_found)`; for a
negative limit the Python slice `data[:limit]` instead drops trailing
elements. -/
theorem batch_counters_invariant (oracle : AttachmentInfo → AttachmentOutcome)
    (rows : List ExcelRow) (limit : Int) (force : Bool) (db : List InvoiceRecord)
    (h : (process_from_excel_file oracle rows limit force db).1.success = true) :
    (process_from_excel_file oracle rows limit force db).1.successful_extractions
        + (process_from_excel_file oracle rows limit force db).1.failed_extractions
      = (process_from_excel_file oracle rows limit force db).1.processed_attachments
    ∧ (process_from_excel_file oracle rows limit force db).1.results.length
      = (process_from_excel_file oracle rows limit force db).1.processed_attachments
    ∧ (process_from_excel_file oracle rows limit force db).1.successful_extractions
      = (process_from_excel_file oracle rows limit force db).1.results.countP
          (fun e => e.success)
    ∧ (∀ e ∈ (process_from_excel_file oracle rows limit force db).1.results,
        e.status = some "already_processed" → e.success = true)
    ∧ (0 ≤ limit →
        (process_from_excel_file oracle rows limit force db).1.processed_attachments
          = min limit.toNat
              (process_from_excel_file oracle rows limit force db).1.total_attachments_found) := by
  by_cases hd : (extract_attachments_from_file rows).isEmpty = true
  · exfalso
    revert h
    simp [process_from_excel_file, hd]
  · have hd2 : (extract_attachments_from_file rows).isEmpty = false := by
      simpa using hd
    rw [process_from_excel_file_nonempty oracle rows limit force db hd2]
    dsimp only
    have hs := processLoop_spec oracle force
      (pySlice (extract_attachments_from_file rows) limit) db
    refine ⟨?_, hs.1, hs.2.1, ?_, ?_⟩
    · rw [hs.2.1, hs.2.2, ← hs.1]
      exact countP_bool_split _
    · intro e he hst
      exact processLoop_already oracle force _ db e he hst
    · intro hl
      rw [pySlice, if_pos hl, List.length_take]

/-- Witness for the amended C10 on a concrete successful run with a
non-negative limit. -/
theorem batch_counters_invariant_witness :
    (process_from_excel_file oracleAllOk rowsW 10 false []).1.success = true
    ∧ (process_from_excel_file oracleAllOk rowsW 10 false []).1.successful_extractions
        + (process_from_excel_file oracleAllOk rowsW 10 false []).1.failed_extractions
      = (process_from_excel_file oracleAllOk rowsW 10 false []).1.processed_attachments
    ∧ (0 : Int) ≤ 10
    ∧ (process_from_excel_file oracleAllOk rowsW 10 false []).1.processed_attachments
      = min (10 : Int).toNat
          (process_from_excel_file oracleAllOk rowsW 10 false []).1.total_attachments_found := by
  have h := batch_counters_invariant oracleAllOk rowsW 10 false [] (by decide)
  exact ⟨by decide, h.1, by decide, h.2.2.2.2 (by decide)⟩

/-- C1: the GRN-mode idempotency check is keyed by the attachment slot number
alone - `InvoiceData.objects.filter(attachment_number=str(i))` - not by the
(source reference, slot) pair: with the store holding only a record from GRN
7 at a different URL, processing GRN 8 short-circuits its slot-1 attachment
as `already_processed` (surfacing the record of GRN 7) and persists nothing, even
though no record for GRN 8 or for its URL exists. -/
theorem grn_idempotency_key_bug :
    invA.source_grn ≠ some grnB.id
    ∧ invA.attachment_url ≠ "https://b.example/b.pdf"
    ∧ grnB.attachment_1 = some "https://b.example/b.pdf"
    ∧ (process_grn_attachments oracleExtract grnB [invA]).1.results
        = [{ attachment := some "1", success := true,
             status := some "already_processed", invoice_id := some 1,
             vendor_name := some "Acme", invoice_number := some "INV-A" }]
    ∧ (process_grn_attachments oracleExtract grnB [invA]).2 = [invA] := by
  refine ⟨by decide, by decide, by decide, by decide, by decide⟩
